import Mathlib

/-
Verification development for the StorePulse authentication / tenant-isolation
layer (src/services/api/auth.py, tenant_middleware.py, tenant_management.py).

The Python code is shallowly embedded: the database is an explicit record of
tenant / store / API-key tables, SQL queries become list scans in row order,
and every operation that mutates the database returns the new database value.
Raised exceptions become values of explicit error types.  Wall-clock time is
an explicit natural-number parameter (seconds).
-/

namespace StorePulse

/-- A row of the `tenants` table (fields used by the verified code paths). -/
structure Tenant where
  tenant_id : String
  company_name : String
  max_stores : Nat
  is_active : Bool
deriving DecidableEq, Repr

/-- A row of the `stores` table. -/
structure Store where
  tenant_id : String
  store_id : String
  store_name : String
  is_active : Bool
deriving DecidableEq, Repr

/-- A row of the `store_api_keys` table. -/
structure ApiKey where
  key_id : String
  tenant_id : String
  store_id : String
  key_hash : String
  is_active : Bool
  last_used_at : Option Nat
deriving DecidableEq, Repr

/-- The external keyed-record store.  `updateFails` models the UPDATE
statement of a `last_used_at` write raising a database exception (the
external store failing); all reads are modelled as total. -/
structure Db where
  tenants : List Tenant
  stores : List Store
  apiKeys : List ApiKey
  updateFails : Bool
deriving DecidableEq, Repr

/-- Models `hashlib.sha256(s.encode()).hexdigest()` as an injective executable
stand-in; the development relies only on the digest being deterministic. -/
def sha256Hex (s : String) : String := "sha256:" ++ s

/-- Embeds `SELECT ... FROM tenants WHERE tenant_id = :tenant_id` (first row). -/
def findTenant (db : Db) (tid : String) : Option Tenant :=
  db.tenants.find? (fun t => t.tenant_id == tid)

/-- Embeds `SELECT ... FROM stores WHERE tenant_id = :t AND store_id = :s` (first row). -/
def findStore (db : Db) (tid sid : String) : Option Store :=
  db.stores.find? (fun s => s.tenant_id == tid && s.store_id == sid)

/-- The logical errors of the authentication layer.  Each constructor stands
for one distinct `HTTPException` detail string raised in `auth.py` /
`tenant_middleware.py`; `dbError` stands for an exception raised by the
external store itself (propagated, not an `HTTPException`). -/
inductive AuthError where
  /-- the `401 "API key required"` error -/
  | missingKey
  /-- the `401 "Invalid API key"` error -/
  | invalidKey
  /-- the `401 "Tenant account is inactive"` / `401 "Tenant inactive or not found"` errors -/
  | tenantInactive
  /-- the `401 "Store is inactive"` error -/
  | storeInactive
  /-- the `401 "Invalid token: ..."` error (the `jwt.InvalidTokenError` handler) -/
  | invalidToken
  /-- the `401 "Token expired"` error -/
  | tokenExpired
  /-- the `401 "Token verification failed"` error (the generic `except Exception` handler) -/
  | tokenVerificationFailed
  /-- an exception from the external record store, propagated to the caller -/
  | dbError
deriving DecidableEq, Repr

/-- The HTTP status each `AuthError` surfaces with (all `HTTPException`s in
the authentication layer are 401; a propagated store exception becomes the
framework's generic 500). -/
def httpStatus : AuthError → Nat
  | .dbError => 500
  | _ => 401

/-- The row produced by the `verify_api_key` join: the first active key row
whose hash matches and whose owning tenant row and store row exist (inner
JOINs), paired with those rows.  `auth.py` lines 83-96. -/
def verifyApiKeyRow (db : Db) (h : String) : Option (ApiKey × Tenant × Store) :=
  db.apiKeys.findSome? fun k =>
    if k.key_hash == h && k.is_active then
      match findTenant db k.tenant_id, findStore db k.tenant_id k.store_id with
      | some t, some s => some (k, t, s)
      | _, _ => none
    else none

/-- Embeds `UPDATE store_api_keys SET last_used_at = NOW() WHERE key_hash = :key_hash`. -/
def touchLastUsed (h : String) (now : Nat) (l : List ApiKey) : List ApiKey :=
  l.map fun k => if k.key_hash == h then { k with last_used_at := some now } else k

/-- The context dictionary returned by `AuthService.verify_api_key`. -/
structure ApiKeyContext where
  tenant_id : String
  store_id : String
  key_id : String
  company_name : String
  store_name : String
  auth_type : String
deriving DecidableEq, Repr

/-- Result of `AuthService.verify_api_key`: the returned value or raised
error, the database after the call, and how many `last_used_at` UPDATE
statements were issued. -/
structure VerifyApiKeyResult where
  res : Except AuthError ApiKeyContext
  db : Db
  updates : Nat
deriving Repr

/-- Embeds `AuthService.verify_api_key` (`auth.py` lines 73-122): empty key is
rejected, then the hash is looked up joined with its tenant and store, the
tenant- and store-liveness checks run, and only then is the `last_used_at`
UPDATE issued and the context returned.  A failing UPDATE propagates (there
is no try/except in this method) and leaves the table unchanged (no commit). -/
def verifyApiKey (apiKey : String) (now : Nat) (db : Db) : VerifyApiKeyResult :=
  if apiKey == "" then ⟨.error .missingKey, db, 0⟩
  else
    let h := sha256Hex apiKey
    match verifyApiKeyRow db h with
    | none => ⟨.error .invalidKey, db, 0⟩
    | some (k, t, s) =>
      if !t.is_active then ⟨.error .tenantInactive, db, 0⟩
      else if !s.is_active then ⟨.error .storeInactive, db, 0⟩
      else if db.updateFails then ⟨.error .dbError, db, 1⟩
      else
        ⟨.ok ⟨k.tenant_id, k.store_id, k.key_id, t.company_name, s.store_name, "api_key"⟩,
         { db with apiKeys := touchLastUsed h now db.apiKeys }, 1⟩

/-- Embeds `AuthService._verify_tenant_active` (`auth.py` lines 229-237):
`tenant and tenant.is_active`. -/
def verifyTenantActive (db : Db) (tid : String) : Bool :=
  match findTenant db tid with
  | some t => t.is_active
  | none => false

/-- Python truthiness of an `Optional[str]`: `None` and `""` are falsy. -/
def truthyOpt : Option String → Bool
  | none => false
  | some s => !s.isEmpty

/-- The JWT payload built by `create_access_token` (and carried by any token
`verify_access_token` may receive). -/
structure Payload where
  sub : String
  tenant_id : Option String
  user_type : String
  permissions : List String
  exp : Nat
  iat : Nat
  iss : String
deriving DecidableEq, Repr

/-- A signed token.  `sig` records the secret the token was signed with:
this models an unforgeable MAC — `jwt.decode` succeeds exactly when the
verifying secret equals the signing secret, and otherwise raises
`jwt.InvalidTokenError`. -/
structure Token where
  payload : Payload
  sig : String
deriving DecidableEq, Repr

/-- The subject descriptor `user_data` passed to `create_access_token`:
`user_id` and `tenant_id` are accessed with `[]` (required), `user_type`
and `permissions` with `.get` (defaulted). -/
structure UserData where
  user_id : String
  tenant_id : String
  user_type : Option String
  permissions : Option (List String)
deriving DecidableEq, Repr

/-- Embeds `AuthService.create_access_token` (`auth.py` lines 31-47) with
`access_token_expire_minutes = 60`, so `exp = iat + 3600` seconds. -/
def createAccessToken (secret : String) (ud : UserData) (now : Nat) : Token :=
  { payload :=
      { sub := ud.user_id
        tenant_id := some ud.tenant_id
        user_type := ud.user_type.getD "client"
        permissions := ud.permissions.getD []
        exp := now + 60 * 60
        iat := now
        iss := "storepulse-auth" }
    sig := secret }

/-- The body of the `try` block of `AuthService.verify_access_token`
(`auth.py` lines 52-64), before its `except` clauses: `jwt.decode` (signature
check), the explicit expiry check (`utcnow() > exp` raises
`HTTPException(401, "Token expired")`), and the tenant-liveness check
(performed only when `payload.get("tenant_id")` is truthy; raises
`HTTPException(401, "Tenant inactive or not found")`).  The second component
counts tenant-liveness lookups issued against the store. -/
def verifyAccessTokenTry (secret : String) (tok : Token) (now : Nat) (db : Db) :
    Except AuthError Payload × Nat :=
  if tok.sig != secret then (.error .invalidToken, 0)
  else if tok.payload.exp < now then (.error .tokenExpired, 0)
  else if truthyOpt tok.payload.tenant_id then
    if verifyTenantActive db (tok.payload.tenant_id.getD "") then (.ok tok.payload, 1)
    else (.error .tenantInactive, 1)
  else (.ok tok.payload, 0)

/-- Embeds `AuthService.verify_access_token` (`auth.py` lines 49-70) with its
`except` clauses applied.  `except jwt.InvalidTokenError` re-raises
`401 "Invalid token: ..."`.  The following `except Exception` catches every
other exception raised in the `try` body — including the two
`HTTPException`s raised there, since `fastapi.HTTPException` is a subclass of
`Exception` — and re-raises the generic `401 "Token verification failed"`. -/
def verifyAccessToken (secret : String) (tok : Token) (now : Nat) (db : Db) :
    Except AuthError Payload × Nat :=
  match verifyAccessTokenTry secret tok now db with
  | (.ok p, n) => (.ok p, n)
  | (.error .invalidToken, n) => (.error .invalidToken, n)
  | (.error _, n) => (.error .tokenVerificationFailed, n)

/-- An entry of the middleware's in-memory `api_key_cache` dict:
resolved tenant/store ids plus an absolute expiry instant. -/
structure CacheEntry where
  tenant_id : String
  store_id : String
  expires : Nat
deriving DecidableEq, Repr

/-- The `api_key_cache` dict: digest key to entry, latest write wins. -/
abbrev Cache := List (String × CacheEntry)

/-- Embeds `self.api_key_cache.get(cache_key)`. -/
def cacheGet (c : Cache) (k : String) : Option CacheEntry :=
  (List.find? (fun p => p.1 == k) c).map (fun p => p.2)

/-- Embeds `self.api_key_cache[cache_key] = entry` (dict assignment overwrites). -/
def cacheInsert (c : Cache) (k : String) (v : CacheEntry) : Cache :=
  (k, v) :: List.filter (fun p => p.1 != k) c

/-- The row of the `_lookup_api_key` query (`tenant_middleware.py` lines
110-120): the first active key row whose hash matches, whose owning tenant
row exists (inner JOIN) and is active.  Unlike the `verify_api_key` join in
`auth.py`, the `stores` table is not consulted at all. -/
def lookupApiKeyRow (db : Db) (h : String) : Option (String × String) :=
  db.apiKeys.findSome? fun k =>
    if k.key_hash == h && k.is_active then
      match findTenant db k.tenant_id with
      | some t => if t.is_active then some (k.tenant_id, k.store_id) else none
      | none => none
    else none

/-- Result of `_lookup_api_key`: the returned pair or a propagated store
exception, the database after the call, and the number of `last_used_at`
UPDATE statements issued. -/
structure LookupResult where
  res : Except AuthError (Option String × Option String)
  db : Db
  updates : Nat
deriving Repr

/-- Embeds `TenantContextMiddleware._lookup_api_key` (`tenant_middleware.py` lines
103-132): one SELECT; on a row, the `last_used_at` UPDATE is issued (awaited
inline; a raised exception propagates to the caller and the table stays
unchanged) and `(tenant_id, store_id)` is returned; otherwise `(None, None)`. -/
def lookupApiKey (apiKey : String) (now : Nat) (db : Db) : LookupResult :=
  let h := sha256Hex apiKey
  match lookupApiKeyRow db h with
  | some (tid, sid) =>
    if db.updateFails then ⟨.error .dbError, db, 1⟩
    else ⟨.ok (some tid, some sid), { db with apiKeys := touchLastUsed h now db.apiKeys }, 1⟩
  | none => ⟨.ok (none, none), db, 0⟩

/-- Result of `_extract_tenant_context`: the returned pair or a propagated
exception, the cache and database after the call, and the number of
external-store lookups (calls into `_lookup_api_key`) issued. -/
structure ExtractResult where
  res : Except AuthError (Option String × Option String)
  cache : Cache
  db : Db
  dbLookups : Nat
deriving Repr

/-- Embeds `TenantContextMiddleware._extract_tenant_context` (`tenant_middleware.py`
lines 71-101) from the already-extracted bearer value: empty key short-circuits;
a cache hit strictly younger than its expiry is returned without any store
lookup; otherwise `_lookup_api_key` runs and a truthy `tenant_id` result is
cached with `expires = now + 300` (`cache_ttl = 300`). -/
def extractTenantContext (apiKey : String) (now : Nat) (cache : Cache) (db : Db) :
    ExtractResult :=
  if apiKey == "" then ⟨.ok (none, none), cache, db, 0⟩
  else
    let h := sha256Hex apiKey
    let hit :=
      match cacheGet cache h with
      | some e => if now < e.expires then some e else none
      | none => none
    match hit with
    | some e => ⟨.ok (some e.tenant_id, some e.store_id), cache, db, 0⟩
    | none =>
      let r := lookupApiKey apiKey now db
      match r.res with
      | .error e => ⟨.error e, cache, r.db, 1⟩
      | .ok (tid, sid) =>
        let cache' :=
          if truthyOpt tid then
            cacheInsert cache h ⟨tid.getD "", sid.getD "", now + 300⟩
          else cache
        ⟨.ok (tid, sid), cache', r.db, 1⟩

/-- Left-to-right non-overlapping removal of `pat` from a character list,
the algorithm of Python `str.replace(pat, "")`; the fuel argument (the
list's length suffices) only bounds the recursion. -/
def pyRemoveAllAux (pat : List Char) : Nat → List Char → List Char
  | _, [] => []
  | 0, s => s
  | fuel + 1, c :: rest =>
    if List.isPrefixOf pat (c :: rest) then pyRemoveAllAux pat fuel ((c :: rest).drop pat.length)
    else c :: pyRemoveAllAux pat fuel rest

/-- Python `auth_header.replace("Bearer ", "")` (removes every occurrence). -/
def pyRemoveAll (pat s : String) : String :=
  ⟨pyRemoveAllAux pat.toList s.toList.length s.toList⟩

/-- Python `auth_header.startswith("Bearer ")`. -/
def strStartsWith (pre s : String) : Bool :=
  List.isPrefixOf pre.toList s.toList

/-- The header handling at the top of `_extract_tenant_context` (lines 75-81)
followed by the cache/lookup logic: a header without the `Bearer ` scheme
yields `(None, None)` with no lookup. -/
def extractFromHeader (authHeader : String) (now : Nat) (cache : Cache) (db : Db) :
    ExtractResult :=
  if !strStartsWith "Bearer " authHeader then ⟨.ok (none, none), cache, db, 0⟩
  else extractTenantContext (pyRemoveAll "Bearer " authHeader) now cache db

/-- The three logical responses the middleware can produce: the handler's
response passed through, the 401 `"Invalid or missing API key"` JSON
rejection, and the generic 500 `"Internal server error"` JSON rejection. -/
inductive MwResponse where
  | handler (body : String)
  | unauthorized
  | internalError
deriving DecidableEq, Repr

/-- The errors of `TenantLimitsService` (`tenant_middleware.py` 170-201). -/
inductive QuotaError where
  /-- the `404 "Tenant ... not found or inactive"` error -/
  | tenantNotFound
  /-- the `429 "Store limit exceeded: ..."` error -/
  | storeLimitExceeded
deriving DecidableEq, Repr

/-- HTTP status of each `TenantLimitsService` error. -/
def quotaStatus : QuotaError → Nat
  | .tenantNotFound => 404
  | .storeLimitExceeded => 429

/-- Embeds `SELECT COUNT(*) FROM stores WHERE tenant_id = :tid AND is_active = TRUE`. -/
def countActiveStores (db : Db) (tid : String) : Nat :=
  (db.stores.filter (fun s => s.tenant_id == tid && s.is_active)).length

/-- Embeds `TenantLimitsService.validate_store_limit` (`tenant_middleware.py` lines
173-201): the tenant row must exist and be active (else 404), then the active
store count is compared with `max_stores`; `store_count >= max_stores` raises
the 429 store-limit error. -/
def validateStoreLimit (tid : String) (db : Db) : Except QuotaError Unit :=
  match db.tenants.find? (fun t => t.tenant_id == tid && t.is_active) with
  | none => .error .tenantNotFound
  | some t =>
    if countActiveStores db tid ≥ t.max_stores then .error .storeLimitExceeded
    else .ok ()

/-- Embeds `TenantContextMiddleware._validate_tenant_limits` (lines 141-157), the
body of the fire-and-forget task: it runs the store-limit check (and, every
fourth hour, the cost check), and its `try/except` swallows every failure —
including an injected one (`taskFails`) — so the task never yields a value
to the request path. -/
def validateTenantLimitsTask (tid : String) (db : Db) (taskFails : Bool) : Unit :=
  let _ := validateStoreLimit tid db
  let _ := taskFails
  ()

/-- Result of one pass of the middleware: response, cache and database after. -/
structure MwResult where
  resp : MwResponse
  cache : Cache
  db : Db
deriving Repr

/-- Embeds `TenantContextMiddleware.__call__` (`tenant_middleware.py` lines 30-69).
Bypass paths skip everything.  Everything else runs inside one `try`:
extraction (a propagated store exception lands in `except Exception` → 500),
the falsy-tenant 401, `_set_database_context` (`setCtxFails` models it
raising → 500), the fire-and-forget `create_task` of the limits check whose
outcome is discarded, the handler, and then `_log_tenant_activity` — which is
awaited inside the same `try`, so an exception there (`logFails`) is caught by
`except Exception` and replaces the already-produced handler response with
the generic 500. -/
def middlewareCall (path authHeader : String) (now : Nat) (cache : Cache) (db : Db)
    (setCtxFails taskFails logFails : Bool) (handlerBody : String) : MwResult :=
  if ["/health", "/docs", "/openapi.json"].contains path then ⟨.handler handlerBody, cache, db⟩
  else
    let er := extractFromHeader authHeader now cache db
    match er.res with
    | .error _ => ⟨.internalError, er.cache, er.db⟩
    | .ok (tid, _) =>
      if !truthyOpt tid then ⟨.unauthorized, er.cache, er.db⟩
      else if setCtxFails then ⟨.internalError, er.cache, er.db⟩
      else
        let _ := validateTenantLimitsTask (tid.getD "") er.db taskFails
        if logFails then ⟨.internalError, er.cache, er.db⟩
        else ⟨.handler handlerBody, er.cache, er.db⟩

/-- Errors of `create_store` (`tenant_management.py` lines 192-236). -/
inductive CreateStoreError where
  /-- the `404 "Tenant ... not found or inactive"` error -/
  | tenantNotFound
  /-- the `409 "Store limit reached: ..."` error -/
  | storeLimitReached
  /-- the `409 "Store ... already exists ..."` error -/
  | storeExists
deriving DecidableEq, Repr

/-- Embeds `create_store` (`tenant_management.py` lines 192-236): active-tenant
check, store-limit check (`store_count >= max_stores` rejects), duplicate
store-id check, then the INSERT.  The inserted row's `is_active` value is not
set by the INSERT; it is the schema column default.
Modelled from the spec: the `stores` schema DDL is not under `src/`; per the
data model a created store is active and counted against `max_stores`, so the
default is TRUE. -/
def createStore (tid sid sname : String) (db : Db) : Except CreateStoreError Db :=
  match db.tenants.find? (fun t => t.tenant_id == tid && t.is_active) with
  | none => .error .tenantNotFound
  | some t =>
    if countActiveStores db tid ≥ t.max_stores then .error .storeLimitReached
    else if db.stores.any (fun s => s.tenant_id == tid && s.store_id == sid) then
      .error .storeExists
    else
      .ok { db with stores := db.stores ++ [⟨tid, sid, sname, true⟩] }

/-- Error of `generate_api_key` (`tenant_management.py` lines 276-324). -/
inductive GenKeyError where
  /-- the `404 "Store ... not found for tenant ..."` error -/
  | storeNotFound
deriving DecidableEq, Repr

/-- Embeds `UPDATE store_api_keys SET is_active = FALSE WHERE tenant_id = :t AND
store_id = :s` — every key of the pair, with no `is_active` filter. -/
def deactivateFor (t s : String) (l : List ApiKey) : List ApiKey :=
  l.map fun k =>
    if k.tenant_id == t && k.store_id == s then { k with is_active := false } else k

/-- The row inserted by `generate_api_key`: `key_id = "store_{t}_{s}"`,
hash of the freshly generated secret `"store_{t}_{s}_{rand}"`, active. -/
def newApiKey (t s rand : String) : ApiKey :=
  { key_id := "store_" ++ t ++ "_" ++ s
    tenant_id := t
    store_id := s
    key_hash := sha256Hex ("store_" ++ t ++ "_" ++ s ++ "_" ++ rand)
    is_active := true
    last_used_at := none }

/-- Embeds `generate_api_key` (`tenant_management.py` lines 276-324): the store must
exist and be active (404 otherwise); all keys of the (tenant, store) pair are
deactivated; one new active key is inserted; the raw secret is returned. -/
def generateApiKey (t s rand : String) (db : Db) : Except GenKeyError (String × Db) :=
  if db.stores.any (fun st => st.tenant_id == t && st.store_id == s && st.is_active) then
    .ok ("store_" ++ t ++ "_" ++ s ++ "_" ++ rand,
         { db with apiKeys := deactivateFor t s db.apiKeys ++ [newApiKey t s rand] })
  else .error .storeNotFound

/-- The WHERE clause of `generate_api_key`'s deactivation UPDATE: the key
belongs to the given (tenant, store) pair. -/
def isForPair (t s : String) (k : ApiKey) : Bool :=
  k.tenant_id == t && k.store_id == s

/-- An active key of the given (tenant, store) pair. -/
def isActiveFor (t s : String) (k : ApiKey) : Bool :=
  k.tenant_id == t && k.store_id == s && k.is_active

/- Concrete fixtures used by counterexamples and witnesses. -/

/-- Tenant `t1`, active, `max_stores = 2`. -/
def tenantT1 : Tenant := ⟨"t1", "Acme", 2, true⟩

/-- Tenant `t1`, deactivated. -/
def tenantT1Off : Tenant := ⟨"t1", "Acme", 2, false⟩

/-- Store `s1` of tenant `t1`, active. -/
def storeS1 : Store := ⟨"t1", "s1", "Store One", true⟩

/-- Store `s1` of tenant `t1`, deactivated. -/
def storeS1Off : Store := ⟨"t1", "s1", "Store One", false⟩

/-- An active key for `(t1, s1)` whose secret is `"key1"`. -/
def keyK1 : ApiKey := ⟨"store_t1_s1", "t1", "s1", sha256Hex "key1", true, none⟩

/-- Database where key, store and tenant are all active. -/
def dbAllActive : Db := ⟨[tenantT1], [storeS1], [keyK1], false⟩

/-- Database where the key and tenant are active but the store is deactivated. -/
def dbStoreOff : Db := ⟨[tenantT1], [storeS1Off], [keyK1], false⟩

/-- Database where the key and store are active but the tenant is deactivated. -/
def dbTenantOff : Db := ⟨[tenantT1Off], [storeS1], [keyK1], false⟩

/-- Empty database. -/
def dbEmpty : Db := ⟨[], [], [], false⟩

/-- All rows active, but the external store fails the `last_used_at` UPDATE. -/
def dbUpdateFail : Db := ⟨[tenantT1], [storeS1], [keyK1], true⟩

/-- Subject descriptor of user `u1` of tenant `t1` with defaulted fields. -/
def userU1 : UserData := ⟨"u1", "t1", none, none⟩

/-- State of `dbAllActive` after `generate_api_key "t1" "s1"` with secret suffix
`r2`: the old key deactivated, the new key appended. -/
def dbRotated : Db :=
  ⟨[tenantT1], [storeS1],
   [⟨"store_t1_s1", "t1", "s1", sha256Hex "key1", false, none⟩, newApiKey "t1" "s1" "r2"],
   false⟩

/-- Tenant `t1` (`max_stores = 2`) with two active stores: at its limit. -/
def dbFull : Db :=
  ⟨[tenantT1], [storeS1, ⟨"t1", "s2", "Store Two", true⟩], [keyK1], false⟩

/- Helper lemmas shared across claims. -/

/-- Case analysis of `AuthService.verify_api_key`: either it succeeds with
one UPDATE issued and only `last_used_at` values touched, or the UPDATE
itself failed (table unchanged, one UPDATE issued), or it failed one of the
lookup / liveness checks before issuing any UPDATE (table unchanged). -/
lemma verifyApiKey_cases (apiKey : String) (now : Nat) (db : Db) :
    (db.updateFails = false ∧ ∃ c, verifyApiKey apiKey now db
      = ⟨.ok c, { db with apiKeys := touchLastUsed (sha256Hex apiKey) now db.apiKeys }, 1⟩)
    ∨ verifyApiKey apiKey now db = ⟨.error .dbError, db, 1⟩
    ∨ ∃ e, e ≠ AuthError.dbError ∧ verifyApiKey apiKey now db = ⟨.error e, db, 0⟩ := by
  by_cases hk : (apiKey == "") = true
  · exact .inr (.inr ⟨.missingKey, by decide, by simp [verifyApiKey, hk]⟩)
  · cases hrow : verifyApiKeyRow db (sha256Hex apiKey) with
    | none => exact .inr (.inr ⟨.invalidKey, by decide, by simp [verifyApiKey, hk, hrow]⟩)
    | some kts =>
      obtain ⟨k, t, s⟩ := kts
      cases ht : t.is_active with
      | false =>
        exact .inr (.inr ⟨.tenantInactive, by decide, by simp [verifyApiKey, hk, hrow, ht]⟩)
      | true =>
        cases hs : s.is_active with
        | false =>
          exact .inr (.inr ⟨.storeInactive, by decide, by simp [verifyApiKey, hk, hrow, ht, hs]⟩)
        | true =>
          cases hu : db.updateFails with
          | true => exact .inr (.inl (by simp [verifyApiKey, hk, hrow, ht, hs, hu]))
          | false =>
            exact .inl ⟨rfl, ⟨k.tenant_id, k.store_id, k.key_id, t.company_name,
              s.store_name, "api_key"⟩, by simp [verifyApiKey, hk, hrow, ht, hs, hu]⟩

/-- Case analysis of `_lookup_api_key`: a found row leads to either the
propagated UPDATE failure (table unchanged) or success with one UPDATE
issued; no row leads to `(None, None)` with no UPDATE. -/
lemma lookupApiKey_cases (apiKey : String) (now : Nat) (db : Db) :
    (∃ t s, lookupApiKeyRow db (sha256Hex apiKey) = some (t, s)
      ∧ ((db.updateFails = true ∧ lookupApiKey apiKey now db = ⟨.error .dbError, db, 1⟩)
        ∨ (db.updateFails = false ∧ lookupApiKey apiKey now db
            = ⟨.ok (some t, some s),
               { db with apiKeys := touchLastUsed (sha256Hex apiKey) now db.apiKeys }, 1⟩)))
    ∨ (lookupApiKeyRow db (sha256Hex apiKey) = none
        ∧ lookupApiKey apiKey now db = ⟨.ok (none, none), db, 0⟩) := by
  cases hrow : lookupApiKeyRow db (sha256Hex apiKey) with
  | none => exact .inr ⟨rfl, by simp [lookupApiKey, hrow]⟩
  | some ts =>
    obtain ⟨t, s⟩ := ts
    cases hu : db.updateFails with
    | true => exact .inl ⟨t, s, rfl, .inl ⟨rfl, by simp [lookupApiKey, hrow, hu]⟩⟩
    | false => exact .inl ⟨t, s, rfl, .inr ⟨rfl, by simp [lookupApiKey, hrow, hu]⟩⟩

/-- Reading a freshly written cache key returns the written entry. -/
lemma cacheGet_cacheInsert_self (c : Cache) (k : String) (v : CacheEntry) :
    cacheGet (cacheInsert c k v) k = some v := by
  simp [cacheGet, cacheInsert, List.find?]

/-- List `findSome?` is unchanged by the `last_used_at` UPDATE when the selector
ignores `last_used_at`. -/
lemma findSome?_touchLastUsed {α : Type} (h2 : String) (now : Nat)
    (f : ApiKey → Option α)
    (hf : ∀ k, f { k with last_used_at := some now } = f k) :
    ∀ l : List ApiKey, (touchLastUsed h2 now l).findSome? f = l.findSome? f := by
  intro l
  induction l with
  | nil => rfl
  | cons k rest ih =>
    unfold touchLastUsed at ih ⊢
    by_cases hk : (k.key_hash == h2) = true
    · rw [List.map_cons, if_pos hk]
      simp only [List.findSome?, hf]
      cases hfk : f k
      · simp only [hfk]
        exact ih
      · simp only [hfk]
    · rw [List.map_cons, if_neg hk]
      simp only [List.findSome?]
      cases hfk : f k
      · simp only [hfk]
        exact ih
      · simp only [hfk]

/-- The pipeline's SELECT is unchanged by a previous `last_used_at` UPDATE:
the WHERE clause and the join read only fields the UPDATE does not touch. -/
lemma lookupApiKeyRow_touch (db : Db) (h h2 : String) (now : Nat) :
    lookupApiKeyRow { db with apiKeys := touchLastUsed h2 now db.apiKeys } h
      = lookupApiKeyRow db h := by
  unfold lookupApiKeyRow
  refine findSome?_touchLastUsed h2 now _ ?_ db.apiKeys
  intro k
  rfl

/-- Running `_extract_tenant_context` on a cache miss with a successful database
resolution: one lookup, the result cached with expiry `now + 300`, the
`last_used_at` UPDATE applied. -/
lemma extract_miss_success (apiKey t s : String) (now : Nat) (cache0 : Cache) (db : Db)
    (hne : (apiKey == "") = false)
    (hmiss : cacheGet cache0 (sha256Hex apiKey) = none)
    (hrow : lookupApiKeyRow db (sha256Hex apiKey) = some (t, s))
    (ht : t.isEmpty = false)
    (hupd : db.updateFails = false) :
    extractTenantContext apiKey now cache0 db
      = ⟨.ok (some t, some s),
         cacheInsert cache0 (sha256Hex apiKey) ⟨t, s, now + 300⟩,
         { db with apiKeys := touchLastUsed (sha256Hex apiKey) now db.apiKeys }, 1⟩ := by
  simp [extractTenantContext, hne, hmiss, lookupApiKey, hrow, hupd, truthyOpt, ht]

/-- Running `_extract_tenant_context` on a fresh cache hit: no lookup, cache and
database untouched, the cached pair returned. -/
lemma extract_hit (apiKey : String) (now : Nat) (cache : Cache) (db : Db) (e : CacheEntry)
    (hne : (apiKey == "") = false)
    (hhit : cacheGet cache (sha256Hex apiKey) = some e)
    (hfresh : now < e.expires) :
    extractTenantContext apiKey now cache db
      = ⟨.ok (some e.tenant_id, some e.store_id), cache, db, 0⟩ := by
  simp [extractTenantContext, hne, hhit, hfresh]

/-- Running `_extract_tenant_context` on a stale cache hit with a successful
database resolution: the expired entry is ignored, the lookup runs again and
its result overwrites the entry. -/
lemma extract_stale_success (apiKey t s : String) (now : Nat) (cache : Cache) (db : Db)
    (e : CacheEntry)
    (hne : (apiKey == "") = false)
    (hhit : cacheGet cache (sha256Hex apiKey) = some e)
    (hstale : e.expires ≤ now)
    (hrow : lookupApiKeyRow db (sha256Hex apiKey) = some (t, s))
    (ht : t.isEmpty = false)
    (hupd : db.updateFails = false) :
    extractTenantContext apiKey now cache db
      = ⟨.ok (some t, some s),
         cacheInsert cache (sha256Hex apiKey) ⟨t, s, now + 300⟩,
         { db with apiKeys := touchLastUsed (sha256Hex apiKey) now db.apiKeys }, 1⟩ := by
  simp [extractTenantContext, hne, hhit, lookupApiKey, hrow, hupd, truthyOpt, ht,
    show ¬ (now < e.expires) from by omega]

/-- C5 (amended): for an API key whose resolution succeeds (an active key
row with an active tenant, non-empty tenant id, and a working external
store), two resolutions within one cache TTL window issue exactly one
external-store lookup in total — the second is served from the cache — while
a second resolution at or after the entry's expiry treats the entry as a
miss and issues a second lookup.  (For failed resolutions nothing is cached,
so each resolution issues its own lookup: see the counterexample.) -/
theorem c5_amended_cache_lookups (apiKey t s : String) (now1 now2 : Nat)
    (cache0 : Cache) (db : Db)
    (hne : (apiKey == "") = false)
    (hmiss : cacheGet cache0 (sha256Hex apiKey) = none)
    (hrow : lookupApiKeyRow db (sha256Hex apiKey) = some (t, s))
    (ht : t.isEmpty = false)
    (hupd : db.updateFails = false) :
    (extractTenantContext apiKey now1 cache0 db).dbLookups = 1
    ∧ (extractTenantContext apiKey now1 cache0 db).res = .ok (some t, some s)
    ∧ (now2 < now1 + 300 →
        (extractTenantContext apiKey now2 (extractTenantContext apiKey now1 cache0 db).cache
            (extractTenantContext apiKey now1 cache0 db).db).dbLookups = 0
        ∧ (extractTenantContext apiKey now2 (extractTenantContext apiKey now1 cache0 db).cache
            (extractTenantContext apiKey now1 cache0 db).db).res = .ok (some t, some s))
    ∧ (now1 + 300 ≤ now2 →
        (extractTenantContext apiKey now2 (extractTenantContext apiKey now1 cache0 db).cache
            (extractTenantContext apiKey now1 cache0 db).db).dbLookups = 1) := by
  have h1 := extract_miss_success apiKey t s now1 cache0 db hne hmiss hrow ht hupd
  have hhit := cacheGet_cacheInsert_self cache0 (sha256Hex apiKey) ⟨t, s, now1 + 300⟩
  have hrow2 : lookupApiKeyRow
      { db with apiKeys := touchLastUsed (sha256Hex apiKey) now1 db.apiKeys }
      (sha256Hex apiKey) = some (t, s) := by
    rw [lookupApiKeyRow_touch]
    exact hrow
  refine ⟨by rw [h1], by rw [h1], ?_, ?_⟩
  · intro hlt
    rw [h1]
    have h2 := extract_hit apiKey now2
      (cacheInsert cache0 (sha256Hex apiKey) ⟨t, s, now1 + 300⟩)
      { db with apiKeys := touchLastUsed (sha256Hex apiKey) now1 db.apiKeys }
      ⟨t, s, now1 + 300⟩ hne hhit hlt
    rw [h2]
    exact ⟨rfl, rfl⟩
  · intro hge
    rw [h1]
    have h2 := extract_stale_success apiKey t s now2
      (cacheInsert cache0 (sha256Hex apiKey) ⟨t, s, now1 + 300⟩)
      { db with apiKeys := touchLastUsed (sha256Hex apiKey) now1 db.apiKeys }
      ⟨t, s, now1 + 300⟩ hne hhit hge hrow2 ht hupd
    rw [h2]

/-- C5 amended witness: key `key1` on the all-active database — resolving at
t=0 issues one lookup, resolving again at t=10 is served from the cache with
the same result (zero lookups), and resolving at t=300 issues a second
lookup. -/
theorem c5_amended_cache_lookups_witness :
    (extractTenantContext "key1" 0 [] dbAllActive).dbLookups = 1
    ∧ (extractTenantContext "key1" 10 (extractTenantContext "key1" 0 [] dbAllActive).cache
        (extractTenantContext "key1" 0 [] dbAllActive).db).dbLookups = 0
    ∧ (extractTenantContext "key1" 10 (extractTenantContext "key1" 0 [] dbAllActive).cache
        (extractTenantContext "key1" 0 [] dbAllActive).db).res = .ok (some "t1", some "s1")
    ∧ (extractTenantContext "key1" 300 (extractTenantContext "key1" 0 [] dbAllActive).cache
        (extractTenantContext "key1" 0 [] dbAllActive).db).dbLookups = 1 :=
  ⟨(c5_amended_cache_lookups "key1" "t1" "s1" 0 10 [] dbAllActive
      (by decide) rfl rfl (by decide) rfl).1,
   ((c5_amended_cache_lookups "key1" "t1" "s1" 0 10 [] dbAllActive
      (by decide) rfl rfl (by decide) rfl).2.2.1 (by omega)).1,
   ((c5_amended_cache_lookups "key1" "t1" "s1" 0 10 [] dbAllActive
      (by decide) rfl rfl (by decide) rfl).2.2.1 (by omega)).2,
   (c5_amended_cache_lookups "key1" "t1" "s1" 0 300 [] dbAllActive
      (by decide) rfl rfl (by decide) rfl).2.2.2 (by omega)⟩

/-- C3: issue-then-verify round-trip.  A token produced by
`create_access_token` with the same configured secret, verified at any time
not beyond its expiry while the tenant is active, verifies successfully and
returns the created claim set unchanged — and that claim set carries the
subject descriptor's user id, tenant id, user type and permission set. -/
theorem c3_token_roundtrip (secret : String) (ud : UserData) (db : Db)
    (nowIssue nowVerify : Nat)
    (hTime : nowVerify ≤ nowIssue + 3600)
    (hActive : verifyTenantActive db ud.tenant_id = true) :
    (verifyAccessToken secret (createAccessToken secret ud nowIssue) nowVerify db).1
      = .ok (createAccessToken secret ud nowIssue).payload
    ∧ (createAccessToken secret ud nowIssue).payload.sub = ud.user_id
    ∧ (createAccessToken secret ud nowIssue).payload.tenant_id = some ud.tenant_id
    ∧ (createAccessToken secret ud nowIssue).payload.user_type = ud.user_type.getD "client"
    ∧ (createAccessToken secret ud nowIssue).payload.permissions = ud.permissions.getD [] := by
  have hexp : ¬ (nowIssue + 60 * 60 < nowVerify) := by omega
  refine ⟨?_, rfl, rfl, rfl, rfl⟩
  by_cases he : ud.tenant_id.isEmpty
  all_goals
    simp [verifyAccessToken, verifyAccessTokenTry, createAccessToken, truthyOpt, hexp, he,
      hActive]

/-- C3 witness: the round-trip at a concrete subject, secret and database. -/
theorem c3_token_roundtrip_witness :
    (verifyAccessToken "sec" (createAccessToken "sec" userU1 0) 100 dbAllActive).1
      = .ok (createAccessToken "sec" userU1 0).payload
    ∧ (createAccessToken "sec" userU1 0).payload.sub = userU1.user_id
    ∧ (createAccessToken "sec" userU1 0).payload.tenant_id = some userU1.tenant_id
    ∧ (createAccessToken "sec" userU1 0).payload.user_type = userU1.user_type.getD "client"
    ∧ (createAccessToken "sec" userU1 0).payload.permissions = userU1.permissions.getD [] :=
  c3_token_roundtrip "sec" userU1 dbAllActive 0 100 (by omega) rfl

/-- C9 (amended): the `last_used_at` recording is synchronous, not
best-effort — on every successful verification (either path) exactly one
UPDATE was issued, and whenever the external store fails that UPDATE the
verification itself fails with the propagated store error instead of
succeeding. -/
theorem c9_amended_usage_update (apiKey : String) (now : Nat) (db : Db) :
    (∀ c, (verifyApiKey apiKey now db).res = .ok c → (verifyApiKey apiKey now db).updates = 1)
    ∧ (∀ t s, (lookupApiKey apiKey now db).res = .ok (some t, s) →
        (lookupApiKey apiKey now db).updates = 1)
    ∧ (db.updateFails = true → ∀ c, (verifyApiKey apiKey now db).res ≠ .ok c)
    ∧ (db.updateFails = true → ∀ t s, (lookupApiKey apiKey now db).res ≠ .ok (some t, s)) := by
  refine ⟨?_, ?_, ?_, ?_⟩
  · intro c hc
    rcases verifyApiKey_cases apiKey now db with ⟨_, c2, h⟩ | h | ⟨e, _, h⟩ <;> rw [h] <;>
      rw [h] at hc <;> simp_all
  · intro t s hts
    rcases lookupApiKey_cases apiKey now db with ⟨t2, s2, _, ⟨_, h⟩ | ⟨_, h⟩⟩ | ⟨_, h⟩ <;>
      rw [h] <;> rw [h] at hts <;> simp_all
  · intro hupd c hc
    rcases verifyApiKey_cases apiKey now db with ⟨h0, c2, h⟩ | h | ⟨e, _, h⟩ <;>
      rw [h] at hc <;> simp_all
  · intro hupd t s hts
    rcases lookupApiKey_cases apiKey now db with ⟨t2, s2, _, ⟨_, h⟩ | ⟨h0, h⟩⟩ | ⟨_, h⟩ <;>
      rw [h] at hts <;> simp_all

/-- C9 witness: on the all-active database the successful verification
issued exactly one UPDATE (both paths), and on the same database with a
failing external store the verification does not succeed. -/
theorem c9_amended_usage_update_witness :
    (verifyApiKey "key1" 5 dbAllActive).updates = 1
    ∧ (lookupApiKey "key1" 5 dbAllActive).updates = 1
    ∧ (verifyApiKey "key1" 5 dbUpdateFail).res
        ≠ .ok ⟨"t1", "s1", "store_t1_s1", "Acme", "Store One", "api_key"⟩ :=
  ⟨(c9_amended_usage_update "key1" 5 dbAllActive).1
      ⟨"t1", "s1", "store_t1_s1", "Acme", "Store One", "api_key"⟩ rfl,
   (c9_amended_usage_update "key1" 5 dbAllActive).2.1 "t1" (some "s1") rfl,
   (c9_amended_usage_update "key1" 5 dbUpdateFail).2.2.1 rfl
      ⟨"t1", "s1", "store_t1_s1", "Acme", "Store One", "api_key"⟩⟩

/-- C10: failed API-key verifications leave the stored key records
unchanged, on both verification paths: any raised error leaves the database
exactly as it was, and every pre-UPDATE failure (missing key, no matching
active key, inactive tenant, inactive store — every error other than the
UPDATE's own propagated failure) issued no UPDATE statement at all; in the
pipeline path a no-match resolution also issues no UPDATE. -/
theorem c10_error_state_unchanged (apiKey : String) (now : Nat) (db : Db) :
    (∀ e, (verifyApiKey apiKey now db).res = .error e → (verifyApiKey apiKey now db).db = db)
    ∧ (∀ e, (verifyApiKey apiKey now db).res = .error e → e ≠ .dbError →
        (verifyApiKey apiKey now db).updates = 0)
    ∧ (∀ e, (lookupApiKey apiKey now db).res = .error e → (lookupApiKey apiKey now db).db = db)
    ∧ ((lookupApiKey apiKey now db).res = .ok (none, none) →
        (lookupApiKey apiKey now db).db = db ∧ (lookupApiKey apiKey now db).updates = 0) := by
  refine ⟨?_, ?_, ?_, ?_⟩
  · intro e he
    rcases verifyApiKey_cases apiKey now db with ⟨_, c2, h⟩ | h | ⟨e2, _, h⟩ <;> rw [h] <;>
      rw [h] at he <;> simp_all
  · intro e he hne
    rcases verifyApiKey_cases apiKey now db with ⟨_, c2, h⟩ | h | ⟨e2, _, h⟩ <;> rw [h] <;>
      rw [h] at he <;> simp_all
  · intro e he
    rcases lookupApiKey_cases apiKey now db with ⟨t2, s2, _, ⟨_, h⟩ | ⟨_, h⟩⟩ | ⟨_, h⟩ <;>
      rw [h] <;> rw [h] at he <;> simp_all
  · intro hok
    rcases lookupApiKey_cases apiKey now db with ⟨t2, s2, _, ⟨_, h⟩ | ⟨_, h⟩⟩ | ⟨_, h⟩ <;>
      rw [h] <;> rw [h] at hok <;> simp_all

/-- C10 witness: the unknown key `key1` against the empty database fails on
both paths with the database unchanged and no UPDATE issued. -/
theorem c10_error_state_unchanged_witness :
    (verifyApiKey "key1" 0 dbEmpty).db = dbEmpty
    ∧ (verifyApiKey "key1" 0 dbEmpty).updates = 0
    ∧ (lookupApiKey "key1" 0 dbEmpty).db = dbEmpty
    ∧ (lookupApiKey "key1" 0 dbEmpty).updates = 0 :=
  ⟨(c10_error_state_unchanged "key1" 0 dbEmpty).1 .invalidKey rfl,
   (c10_error_state_unchanged "key1" 0 dbEmpty).2.1 .invalidKey rfl (by decide),
   ((c10_error_state_unchanged "key1" 0 dbEmpty).2.2.2 rfl).1,
   ((c10_error_state_unchanged "key1" 0 dbEmpty).2.2.2 rfl).2⟩

/-- C1, counterexample: with key `key1` and tenant `t1` active but store `s1`
deactivated, `AuthService.verify_api_key` fails with the store-inactive error,
but the request pipeline's resolution step (`_lookup_api_key`, and
`_extract_tenant_context` on a cold cache) succeeds with `(t1, s1)` — it never
consults the `stores` table, so the claim that both verification paths fail
with `StoreInactive` is false. -/
theorem c1_pipeline_store_cex :
    (verifyApiKey "key1" 0 dbStoreOff).res = .error .storeInactive
    ∧ (lookupApiKey "key1" 0 dbStoreOff).res = .ok (some "t1", some "s1")
    ∧ (extractTenantContext "key1" 0 [] dbStoreOff).res = .ok (some "t1", some "s1") :=
  ⟨rfl, rfl, rfl⟩

/-- Behavior of `AuthService.verify_api_key` on a non-empty key whose join produced a
row, restated as the chain of liveness checks that follows the SELECT. -/
lemma verifyApiKey_of_row (apiKey : String) (now : Nat) (db : Db) (k : ApiKey)
    (t : Tenant) (s : Store)
    (hne : (apiKey == "") = false)
    (hrow : verifyApiKeyRow db (sha256Hex apiKey) = some (k, t, s)) :
    verifyApiKey apiKey now db =
      if !t.is_active then ⟨.error .tenantInactive, db, 0⟩
      else if !s.is_active then ⟨.error .storeInactive, db, 0⟩
      else if db.updateFails then ⟨.error .dbError, db, 1⟩
      else ⟨.ok ⟨k.tenant_id, k.store_id, k.key_id, t.company_name, s.store_name, "api_key"⟩,
            { db with apiKeys := touchLastUsed (sha256Hex apiKey) now db.apiKeys }, 1⟩ := by
  simp [verifyApiKey, hne, hrow]

/-- C1 (amended): `AuthService.verify_api_key` does require simultaneous
liveness of key, tenant and store — given a joined row, it fails with the
tenant-inactive error exactly when the tenant is deactivated and with the
store-inactive error exactly when the tenant is active but the store is
deactivated.  The request pipeline's resolution step, however, never reads
the `stores` table: its lookup result is invariant under replacing that
table entirely, so a deactivated store cannot make it fail. -/
theorem c1_amended_liveness (apiKey : String) (now : Nat) (db : Db) (k : ApiKey)
    (t : Tenant) (s : Store)
    (hne : (apiKey == "") = false)
    (hrow : verifyApiKeyRow db (sha256Hex apiKey) = some (k, t, s)) :
    ((verifyApiKey apiKey now db).res = .error .tenantInactive ↔ t.is_active = false)
    ∧ ((verifyApiKey apiKey now db).res = .error .storeInactive
        ↔ (t.is_active = true ∧ s.is_active = false))
    ∧ (∀ stores2, lookupApiKeyRow { db with stores := stores2 } (sha256Hex apiKey)
        = lookupApiKeyRow db (sha256Hex apiKey)) := by
  rw [verifyApiKey_of_row apiKey now db k t s hne hrow]
  refine ⟨?_, ?_, fun stores2 => rfl⟩
  all_goals cases ht : t.is_active <;> cases hs : s.is_active <;>
    cases hu : db.updateFails <;> simp

/-- C1 amended witness: on the store-deactivated database the auth-service
path fails with exactly the store-inactive error, and the pipeline lookup is
unaffected even by emptying the `stores` table. -/
theorem c1_amended_liveness_witness :
    ((verifyApiKey "key1" 0 dbStoreOff).res = .error .storeInactive
      ↔ (tenantT1.is_active = true ∧ storeS1Off.is_active = false))
    ∧ lookupApiKeyRow { dbStoreOff with stores := [] } (sha256Hex "key1")
        = lookupApiKeyRow dbStoreOff (sha256Hex "key1") :=
  ⟨(c1_amended_liveness "key1" 0 dbStoreOff keyK1 tenantT1 storeS1Off (by decide) rfl).2.1,
   (c1_amended_liveness "key1" 0 dbStoreOff keyK1 tenantT1 storeS1Off (by decide) rfl).2.2 []⟩

/-- C2: evaluation of `verify_access_token` at the failing input.  For a
token signed with the configured secret, unexpired, carrying tenant `t1`,
verified while `t1` is deactivated, the `try` body raises the tenant-inactive
error (the liveness lookup is performed, count 1), but the function's own
`except Exception` clause catches that `HTTPException` and the surfaced error
is the generic `"Token verification failed"`, not a TenantInactive error.
Additionally, a token carrying the falsy tenant id `""` skips the liveness
lookup entirely (count 0) and verifies successfully. -/
theorem c2_code_behavior :
    (verifyAccessToken "sec" ⟨⟨"u1", some "t1", "client", [], 3600, 0, "storepulse-auth"⟩, "sec"⟩
        100 dbTenantOff).1 = .error .tokenVerificationFailed
    ∧ (verifyAccessTokenTry "sec" ⟨⟨"u1", some "t1", "client", [], 3600, 0, "storepulse-auth"⟩, "sec"⟩
        100 dbTenantOff).1 = .error .tenantInactive
    ∧ (verifyAccessToken "sec" ⟨⟨"u1", some "t1", "client", [], 3600, 0, "storepulse-auth"⟩, "sec"⟩
        100 dbTenantOff).2 = 1
    ∧ AuthError.tokenVerificationFailed ≠ AuthError.tenantInactive
    ∧ (verifyAccessToken "sec" ⟨⟨"u1", some "", "client", [], 3600, 0, "storepulse-auth"⟩, "sec"⟩
        100 dbEmpty).1 = .ok ⟨"u1", some "", "client", [], 3600, 0, "storepulse-auth"⟩
    ∧ (verifyAccessToken "sec" ⟨⟨"u1", some "", "client", [], 3600, 0, "storepulse-auth"⟩, "sec"⟩
        100 dbEmpty).2 = 0 :=
  ⟨rfl, rfl, rfl, by decide, rfl, rfl⟩

/-- C4: evaluation of `verify_access_token` at the failing input of the
spec's scenario — token issued at T0 = 0 with the 60-minute TTL, verified at
T0 + 3601s.  The `try` body does raise the distinct `"Token expired"` error,
but the function's own `except Exception` clause catches that `HTTPException`
and the surfaced error is the generic `"Token verification failed"` — not the
distinct TokenExpired error the claim requires (and not InvalidToken either). -/
theorem c4_code_behavior :
    (verifyAccessToken "sec" (createAccessToken "sec" userU1 0) 3601 dbAllActive).1
      = .error .tokenVerificationFailed
    ∧ (verifyAccessTokenTry "sec" (createAccessToken "sec" userU1 0) 3601 dbAllActive).1
      = .error .tokenExpired
    ∧ AuthError.tokenVerificationFailed ≠ AuthError.tokenExpired
    ∧ AuthError.tokenVerificationFailed ≠ AuthError.invalidToken :=
  ⟨rfl, rfl, by decide, by decide⟩

/-- C5, counterexample: for the API key `"bogus"` matching no record, two
resolutions through the cache-fronted pipeline 10 seconds apart (well within
the 300s TTL) issue one external-store lookup each — two in total, not
exactly one — because failed resolutions are never cached. -/
theorem c5_failed_lookup_cex :
    (extractTenantContext "bogus" 0 [] dbAllActive).dbLookups = 1
    ∧ (extractTenantContext "bogus" 10 (extractTenantContext "bogus" 0 [] dbAllActive).cache
        (extractTenantContext "bogus" 0 [] dbAllActive).db).dbLookups = 1
    ∧ (extractTenantContext "bogus" 0 [] dbAllActive).dbLookups
        + (extractTenantContext "bogus" 10 (extractTenantContext "bogus" 0 [] dbAllActive).cache
            (extractTenantContext "bogus" 0 [] dbAllActive).db).dbLookups ≠ 1 :=
  ⟨rfl, rfl, by decide⟩

/-- C6, counterexample: same request, same database, handler produced `"OK"`;
with the activity-recording step failing, the middleware's response is the
generic 500 instead of the handler's response — the failure is surfaced and
changes the response already produced, contrary to the claim. -/
theorem c6_log_failure_cex :
    (middlewareCall "/v1/x" "Bearer key1" 0 [] dbAllActive false false false "OK").resp
      = .handler "OK"
    ∧ (middlewareCall "/v1/x" "Bearer key1" 0 [] dbAllActive false false true "OK").resp
      = .internalError
    ∧ MwResponse.internalError ≠ MwResponse.handler "OK" :=
  ⟨rfl, rfl, by decide⟩

/-- C6 (amended): of the two post-resolution steps, only the deferred
quota check is insulated from the response — the middleware's result is
invariant under the fire-and-forget task's outcome, because the task body
swallows its own exceptions and its handle is discarded.  An exception in
the activity-recording step, by contrast, is caught by the middleware's
outer `except Exception` and replaces the handler's already-produced
response with the generic 500. -/
theorem c6_amended_post_steps (path authHeader : String) (now : Nat) (cache : Cache)
    (db : Db) (setCtxFails logFails : Bool) (handlerBody : String) :
    (∀ q1 q2, middlewareCall path authHeader now cache db setCtxFails q1 logFails handlerBody
      = middlewareCall path authHeader now cache db setCtxFails q2 logFails handlerBody)
    ∧ (∀ tid sid,
        (["/health", "/docs", "/openapi.json"].contains path) = false →
        (extractFromHeader authHeader now cache db).res = .ok (tid, sid) →
        truthyOpt tid = true →
        setCtxFails = false →
        (middlewareCall path authHeader now cache db false false true handlerBody).resp
          = .internalError
        ∧ (middlewareCall path authHeader now cache db false false false handlerBody).resp
          = .handler handlerBody) := by
  refine ⟨fun q1 q2 => rfl, ?_⟩
  intro tid sid hpath hres htid hctx
  simp only [List.contains_eq_any_beq, List.any_eq_false] at hpath
  have h1 := hpath "/health" (by simp)
  have h2 := hpath "/docs" (by simp)
  have h3 := hpath "/openapi.json" (by simp)
  constructor
  all_goals simp_all [middlewareCall, hres, htid]

/-- C6 amended witness: at a concrete request and database the middleware's
response does not depend on the deferred quota check, but a failing
activity-recording step turns the handler's `"OK"` into the generic 500. -/
theorem c6_amended_post_steps_witness :
    middlewareCall "/v1/x" "Bearer key1" 0 [] dbAllActive false true false "OK"
      = middlewareCall "/v1/x" "Bearer key1" 0 [] dbAllActive false false false "OK"
    ∧ (middlewareCall "/v1/x" "Bearer key1" 0 [] dbAllActive false false true "OK").resp
      = .internalError
    ∧ (middlewareCall "/v1/x" "Bearer key1" 0 [] dbAllActive false false false "OK").resp
      = .handler "OK" :=
  ⟨(c6_amended_post_steps "/v1/x" "Bearer key1" 0 [] dbAllActive false false "OK").1 true false,
   ((c6_amended_post_steps "/v1/x" "Bearer key1" 0 [] dbAllActive false false "OK").2
      (some "t1") (some "s1") rfl rfl rfl rfl).1,
   ((c6_amended_post_steps "/v1/x" "Bearer key1" 0 [] dbAllActive false false "OK").2
      (some "t1") (some "s1") rfl rfl rfl rfl).2⟩

/-- C9, counterexample: with key, store and tenant all active, the only
difference between `dbAllActive` and `dbUpdateFail` is that the external
store fails the `last_used_at` UPDATE — and that alone turns both
verification paths from success into failure, because the update is awaited
inline with no exception handling, contrary to the claimed asynchronous
best-effort recording. -/
theorem c9_sync_update_cex :
    (verifyApiKey "key1" 5 dbAllActive).res
      = .ok ⟨"t1", "s1", "store_t1_s1", "Acme", "Store One", "api_key"⟩
    ∧ (verifyApiKey "key1" 5 dbUpdateFail).res = .error .dbError
    ∧ (lookupApiKey "key1" 5 dbUpdateFail).res = .error .dbError
    ∧ dbUpdateFail = { dbAllActive with updateFails := true } :=
  ⟨rfl, rfl, rfl, rfl⟩

/-- The deactivation UPDATE restricted to the active keys of any pair:
for the operated pair it leaves none, for any other pair it changes nothing. -/
lemma deactivateFor_filter_active (t s t2 s2 : String) :
    ∀ l : List ApiKey, (deactivateFor t s l).filter (isActiveFor t2 s2)
      = if t2 = t ∧ s2 = s then [] else l.filter (isActiveFor t2 s2) := by
  intro l
  induction l with
  | nil => simp [deactivateFor]
  | cons k rest ih =>
    unfold deactivateFor at ih ⊢
    by_cases hts : t2 = t ∧ s2 = s
    · rw [if_pos hts] at ih ⊢
      rw [List.map_cons, List.filter_cons]
      by_cases hk : (k.tenant_id == t && k.store_id == s) = true
      · rw [if_pos hk]
        have h1 : isActiveFor t2 s2 { k with is_active := false } = false := by
          simp [isActiveFor]
        rw [h1]
        simp only [Bool.false_eq_true, if_false]
        exact ih
      · rw [if_neg hk]
        have h1 : isActiveFor t2 s2 k = false := by
          rw [hts.1, hts.2]
          unfold isActiveFor
          cases h1 : (k.tenant_id == t) <;> cases h2 : (k.store_id == s) <;> simp_all
        rw [h1]
        simp only [Bool.false_eq_true, if_false]
        exact ih
    · rw [if_neg hts] at ih ⊢
      rw [List.map_cons, List.filter_cons, List.filter_cons]
      by_cases hk : (k.tenant_id == t && k.store_id == s) = true
      · rw [if_pos hk]
        have hkp : k.tenant_id = t ∧ k.store_id = s := by simpa using hk
        have h1 : isActiveFor t2 s2 { k with is_active := false } = false := by
          simp [isActiveFor]
        have h2 : isActiveFor t2 s2 k = false := by
          unfold isActiveFor
          rcases not_and_or.mp hts with hne | hne
          · have h3 : (k.tenant_id == t2) = false := by
              simp only [beq_eq_false_iff_ne, ne_eq, hkp.1]
              exact fun hc => hne hc.symm
            simp [h3]
          · have h3 : (k.store_id == s2) = false := by
              simp only [beq_eq_false_iff_ne, ne_eq, hkp.2]
              exact fun hc => hne hc.symm
            simp [h3]
        rw [h1, h2]
        simp only [Bool.false_eq_true, if_false]
        exact ih
      · rw [if_neg hk, ih]

/-- The deactivation UPDATE does not touch keys outside the operated pair. -/
lemma deactivateFor_filter_other (t s : String) :
    ∀ l : List ApiKey, (deactivateFor t s l).filter (fun k => !(isForPair t s k))
      = l.filter (fun k => !(isForPair t s k)) := by
  intro l
  induction l with
  | nil => rfl
  | cons k rest ih =>
    unfold deactivateFor at ih ⊢
    rw [List.map_cons, List.filter_cons, List.filter_cons]
    by_cases hk : (k.tenant_id == t && k.store_id == s) = true
    · rw [if_pos hk]
      have h1 : (!(isForPair t s { k with is_active := false })) = false := by
        simp [isForPair, hk]
      have h2 : (!(isForPair t s k)) = false := by
        simp [isForPair, hk]
      rw [h1, h2]
      simp only [Bool.false_eq_true, if_false]
      exact ih
    · rw [if_neg hk, ih]

/-- Successful `generate_api_key` produces exactly the deactivate-then-insert
table. -/
lemma generateApiKey_ok (t s rand : String) (db : Db) (key : String) (db' : Db)
    (h : generateApiKey t s rand db = .ok (key, db')) :
    db' = { db with apiKeys := deactivateFor t s db.apiKeys ++ [newApiKey t s rand] } := by
  unfold generateApiKey at h
  by_cases hc : (db.stores.any fun st => st.tenant_id == t && st.store_id == s && st.is_active)
      = true
  · rw [if_pos hc] at h
    cases h
    rfl
  · rw [if_neg hc] at h
    cases h

/-- C7: issuing a new API key for a (tenant, store) pair with an existing
active store leaves the tenant and store tables unchanged, leaves every key
of every other pair untouched, leaves exactly one active key — the newly
inserted one — for the operated pair, and preserves the at-most-one-active-
key-per-pair invariant. -/
theorem c7_key_rotation (t s rand : String) (db : Db) (key : String) (db' : Db)
    (h : generateApiKey t s rand db = .ok (key, db')) :
    db'.tenants = db.tenants
    ∧ db'.stores = db.stores
    ∧ db'.apiKeys.filter (fun k => !(isForPair t s k))
        = db.apiKeys.filter (fun k => !(isForPair t s k))
    ∧ db'.apiKeys.filter (isActiveFor t s) = [newApiKey t s rand]
    ∧ (∀ t2 s2, (db.apiKeys.filter (isActiveFor t2 s2)).length ≤ 1 →
        (db'.apiKeys.filter (isActiveFor t2 s2)).length ≤ 1) := by
  rw [generateApiKey_ok t s rand db key db' h]
  refine ⟨rfl, rfl, ?_, ?_, ?_⟩
  · rw [List.filter_append, deactivateFor_filter_other]
    simp [newApiKey, isForPair]
  · rw [List.filter_append, deactivateFor_filter_active]
    simp [newApiKey, isActiveFor]
  · intro t2 s2 hinv
    rw [List.filter_append, deactivateFor_filter_active]
    by_cases hts : t2 = t ∧ s2 = s
    · rw [if_pos hts]
      obtain ⟨h1, h2⟩ := hts
      simp [newApiKey, isActiveFor, h1, h2]
    · rw [if_neg hts]
      have hnew : isActiveFor t2 s2 (newApiKey t s rand) = false := by
        unfold isActiveFor newApiKey
        rcases not_and_or.mp hts with hne | hne
        · have h3 : (t == t2) = false := by
            simp only [beq_eq_false_iff_ne, ne_eq]
            exact fun hc => hne hc.symm
          simp [h3]
        · have h3 : (s == s2) = false := by
            simp only [beq_eq_false_iff_ne, ne_eq]
            exact fun hc => hne hc.symm
          simp [h3]
      simp only [List.filter_cons, hnew, Bool.false_eq_true, if_false, List.filter_nil,
        List.append_nil]
      exact hinv

/-- C7 witness: rotating the key of `(t1, s1)` on the all-active database —
the old key is deactivated, the new key is the only active key of the pair,
keys outside the pair are untouched, and the invariant is preserved. -/
theorem c7_key_rotation_witness :
    (generateApiKey "t1" "s1" "r2" dbAllActive).isOk = true
    ∧ dbRotated.tenants = dbAllActive.tenants
    ∧ dbRotated.apiKeys.filter (fun k => !(isForPair "t1" "s1" k))
        = dbAllActive.apiKeys.filter (fun k => !(isForPair "t1" "s1" k))
    ∧ dbRotated.apiKeys.filter (isActiveFor "t1" "s1") = [newApiKey "t1" "s1" "r2"]
    ∧ (dbRotated.apiKeys.filter (isActiveFor "t1" "s1")).length ≤ 1 :=
  ⟨rfl,
   (c7_key_rotation "t1" "s1" "r2" dbAllActive "store_t1_s1_r2" dbRotated rfl).1,
   (c7_key_rotation "t1" "s1" "r2" dbAllActive "store_t1_s1_r2" dbRotated rfl).2.2.1,
   (c7_key_rotation "t1" "s1" "r2" dbAllActive "store_t1_s1_r2" dbRotated rfl).2.2.2.1,
   (c7_key_rotation "t1" "s1" "r2" dbAllActive "store_t1_s1_r2" dbRotated rfl).2.2.2.2
     "t1" "s1" (by decide)⟩

/-- Value of `validate_store_limit` once the active-tenant SELECT returned `tn`. -/
lemma validateStoreLimit_of_find (db : Db) (tid : String) (tn : Tenant)
    (hfind : db.tenants.find? (fun t => t.tenant_id == tid && t.is_active) = some tn) :
    validateStoreLimit tid db
      = if countActiveStores db tid ≥ tn.max_stores then .error .storeLimitExceeded
        else .ok () := by
  unfold validateStoreLimit
  rw [hfind]

/-- Value of `create_store` once the active-tenant SELECT returned `tn`. -/
lemma createStore_of_find (db : Db) (tid sid sname : String) (tn : Tenant)
    (hfind : db.tenants.find? (fun t => t.tenant_id == tid && t.is_active) = some tn) :
    createStore tid sid sname db
      = if countActiveStores db tid ≥ tn.max_stores then .error .storeLimitReached
        else if db.stores.any (fun s => s.tenant_id == tid && s.store_id == sid) then
          .error .storeExists
        else .ok { db with stores := db.stores ++ [⟨tid, sid, sname, true⟩] } := by
  unfold createStore
  rw [hfind]

/-- C8: for an active tenant (first matching row `tn`), the store-limit
check rejects exactly when the active-store count is at or above
`max_stores` (and succeeds exactly when strictly below); the rejection is
the 429 quota error, whose status differs from every authentication error's
status; `create_store` at `count = max_stores` fails with its store-limit
error; and `create_store` at `count = max_stores - 1` with a fresh store id
succeeds, inserting an active store and bringing the active count to
`max_stores`. -/
theorem c8_store_limit (db : Db) (tid : String) (tn : Tenant)
    (hfind : db.tenants.find? (fun t => t.tenant_id == tid && t.is_active) = some tn) :
    (validateStoreLimit tid db = .error .storeLimitExceeded
      ↔ tn.max_stores ≤ countActiveStores db tid)
    ∧ (validateStoreLimit tid db = .ok () ↔ countActiveStores db tid < tn.max_stores)
    ∧ quotaStatus .storeLimitExceeded = 429
    ∧ (∀ e : AuthError, httpStatus e ≠ quotaStatus .storeLimitExceeded)
    ∧ (∀ sid sname, countActiveStores db tid = tn.max_stores →
        createStore tid sid sname db = .error .storeLimitReached)
    ∧ (∀ sid sname, countActiveStores db tid + 1 = tn.max_stores →
        (db.stores.any (fun st => st.tenant_id == tid && st.store_id == sid)) = false →
        createStore tid sid sname db
          = .ok { db with stores := db.stores ++ [⟨tid, sid, sname, true⟩] }
        ∧ countActiveStores { db with stores := db.stores ++ [⟨tid, sid, sname, true⟩] } tid
          = tn.max_stores) := by
  refine ⟨?_, ?_, rfl, ?_, ?_, ?_⟩
  · rw [validateStoreLimit_of_find db tid tn hfind]
    by_cases hge : countActiveStores db tid ≥ tn.max_stores
    · rw [if_pos hge]
      exact iff_of_true rfl hge
    · rw [if_neg hge]
      exact iff_of_false (by simp) hge
  · rw [validateStoreLimit_of_find db tid tn hfind]
    by_cases hge : countActiveStores db tid ≥ tn.max_stores
    · rw [if_pos hge]
      exact iff_of_false (by simp) (by omega)
    · rw [if_neg hge]
      exact iff_of_true rfl (by omega)
  · intro e
    cases e <;> simp [httpStatus, quotaStatus]
  · intro sid sname hcount
    rw [createStore_of_find db tid sid sname tn hfind,
      if_pos (show countActiveStores db tid ≥ tn.max_stores by omega)]
  · intro sid sname hcount hfresh
    refine ⟨?_, ?_⟩
    · rw [createStore_of_find db tid sid sname tn hfind,
        if_neg (show ¬ countActiveStores db tid ≥ tn.max_stores by omega), hfresh]
      simp
    · unfold countActiveStores
      rw [List.filter_append]
      have h1 : List.filter (fun s2 : Store => s2.tenant_id == tid && s2.is_active)
          ([⟨tid, sid, sname, true⟩] : List Store) = [⟨tid, sid, sname, true⟩] := by
        simp
      rw [h1, List.length_append]
      unfold countActiveStores at hcount
      simp only [List.length_cons, List.length_nil]
      omega

/-- C8 witness: tenant `t1` has `max_stores = 2`.  On `dbFull` (two active
stores) the limit check rejects with the 429 quota error and `create_store`
fails; on `dbAllActive` (one active store) creating the fresh store `s2`
succeeds and brings the active count to 2. -/
theorem c8_store_limit_witness :
    (validateStoreLimit "t1" dbFull = .error .storeLimitExceeded
      ↔ tenantT1.max_stores ≤ countActiveStores dbFull "t1")
    ∧ createStore "t1" "s3" "Store Three" dbFull = .error .storeLimitReached
    ∧ createStore "t1" "s2" "Store Two" dbAllActive
        = .ok { dbAllActive with stores := dbAllActive.stores ++ [⟨"t1", "s2", "Store Two", true⟩] }
    ∧ countActiveStores
        { dbAllActive with stores := dbAllActive.stores ++ [⟨"t1", "s2", "Store Two", true⟩] } "t1"
        = tenantT1.max_stores :=
  ⟨(c8_store_limit dbFull "t1" tenantT1 rfl).1,
   (c8_store_limit dbFull "t1" tenantT1 rfl).2.2.2.2.1 "s3" "Store Three" rfl,
   ((c8_store_limit dbAllActive "t1" tenantT1 rfl).2.2.2.2.2 "s2" "Store Two" rfl rfl).1,
   ((c8_store_limit dbAllActive "t1" tenantT1 rfl).2.2.2.2.2 "s2" "Store Two" rfl rfl).2⟩

end StorePulse
